import Mathlib

/-!
Verification of the Process Supervision & Resource Telemetry core of the
`bedrux` repository: a shallow embedding in Lean 4 of the Log Buffer
(`bedrux_tui/log_buffer.py`, `bedrux_tui/util.py`), the Resource Sampler
(`bedrux_tui/stats.py`) and the Process Controller
(`bedrux_tui/controller.py`), together with theorems settling the spec's
claims about them.

Python `float` arithmetic is modelled with exact rationals (`ℚ`), Python
`int` with `Int`/`Nat`; fallible OS calls are modelled by explicit
environment records saying which calls succeed.
-/

namespace Bedrux

/-! ## util.py -/

/-- Model of `util.clamp(value, lo, hi)`:
`return hi if value > hi else lo if value < lo else value`. -/
def clamp (value lo hi : ℚ) : ℚ :=
  if value > hi then hi else if value < lo then lo else value

/-- Model of `util.keep_last(items, max_items)`:
returns `[]` when `max_items <= 0`, the list unchanged when it already has
at most `max_items` elements, and the slice `items[-max_items:]` otherwise. -/
def keep_last (items : List String) (max_items : Int) : List String :=
  if max_items ≤ 0 then []
  else if (items.length : Int) ≤ max_items then items
  else items.drop (items.length - max_items.toNat)

/-- Splitting a character list at every separator character; `acc` holds
the segment under construction, reversed. -/
def splitCharAux (p : Char → Bool) : List Char → List Char → List (List Char)
  | [], acc => [acc.reverse]
  | c :: cs, acc =>
    if p c then acc.reverse :: splitCharAux p cs [] else splitCharAux p cs (c :: acc)

/-- Splitting a string at every character satisfying `p` (the segments
between separators, in order; `n + 1` segments for `n` separators). -/
def splitStr (p : Char → Bool) (s : String) : List String :=
  (splitCharAux p s.data []).map (fun l => ⟨l⟩)

/-- Python `len` on a string: the number of characters. -/
def strLen (s : String) : Nat := s.data.length

/-- Python `str.splitlines()` restricted to `"\n"` line breaks (the only
line break the Controller's sanitized lines can still contain, since
trailing `"\r\n"` is stripped before messages reach the buffer):
splits on `'\n'`, without a trailing empty segment for a final newline,
and yields `[]` on the empty string. -/
def splitlines (s : String) : List String :=
  if s.data = [] then []
  else
    let parts := splitStr (fun c => c = '\n') s
    if s.data.getLast? = some '\n' then parts.dropLast else parts

/-- Model of `util.split_lines(text)`: `str(text).splitlines() or [""]`. -/
def split_lines (text : String) : List String :=
  let ls := splitlines text
  if ls = [] then [""] else ls

/-! ## Python `textwrap.fill` (stdlib dependency of `LogBuffer.render`)

`textwrap.fill(part, width=width)` with default options, restricted to
inputs in which every whitespace-separated word is no longer than the wrap
width (so the `break_long_words` branch never fires — true of every input
considered below): greedy packing of the words into lines joined by single
spaces, each line at most `width` characters, then the lines are joined
with `"\n"` into one string. -/

/-- Python `str.split()` with no separator: whitespace-separated words,
empty strings dropped (restricted to the space character). -/
def splitWords (s : String) : List String :=
  (splitStr (fun c => c = ' ') s).filter (fun w => w ≠ "")

/-- Greedy line packing of `textwrap`: `cur` is the (always nonempty) line
under construction; a word joins it if the line stays within `width`. -/
def wrapAux (width : Nat) : List String → String → List String
  | [], cur => [cur]
  | w :: ws, cur =>
    if strLen cur + 1 + strLen w ≤ width then
      wrapAux width ws (cur ++ " " ++ w)
    else
      cur :: wrapAux width ws w

/-- Model of `textwrap.wrap(text, width)` under the restriction above. -/
def wrap (text : String) (width : Nat) : List String :=
  match splitWords text with
  | [] => []
  | w :: ws => wrapAux width ws w

/-- Python `"sep".join(lines)`. -/
def joinWith (sep : String) : List String → String
  | [] => ""
  | [x] => x
  | x :: y :: xs => x ++ sep ++ joinWith sep (y :: xs)

/-- Model of `textwrap.fill(text, width)`: `"\n".join(wrap(text, width))`. -/
def fill (text : String) (width : Nat) : String :=
  joinWith "\n" (wrap text width)

/-! ## log_buffer.py -/

/-- Model of `LogBuffer`: bounded insertion-ordered store of raw messages. -/
structure LogBuffer where
  max_messages : Int
  messages : List String
  deriving Repr, DecidableEq

/-- A fresh buffer with the given capacity. -/
def LogBuffer.mk' (max_messages : Int) : LogBuffer :=
  { max_messages := max_messages, messages := [] }

/-- Model of `LogBuffer.append(message)`: `self._messages.append(str(message))`
then `self._messages = keep_last(self._messages, self.max_messages)`. -/
def LogBuffer.appendMsg (b : LogBuffer) (message : String) : LogBuffer :=
  { b with messages := keep_last (b.messages ++ [message]) b.max_messages }

/-- Model of `LogBuffer.render(width)`: clamps the width to at least 20, splits each
stored message on embedded newlines, word-wraps every segment with
`textwrap.fill` and returns the list of filled segments. -/
def LogBuffer.render (b : LogBuffer) (width : Int) : List String :=
  let w : Nat := (max 20 width).toNat
  (b.messages.map (fun msg => (split_lines msg).map (fun part => fill part w))).flatten

/-- Model of `LogBuffer.clear()`: empties the store. -/
def LogBuffer.clear (b : LogBuffer) : LogBuffer :=
  { b with messages := [] }

/-- The store reached from an empty buffer by appending `msgs` in order. -/
def applyAppends (cap : Int) (msgs : List String) : List String :=
  msgs.foldl (fun st m => keep_last (st ++ [m]) cap) []

/-! ## stats.py -/

/-- Model of `ResourceSample`: one measurement produced by the sampler. -/
structure ResourceSample where
  cpu_percent : ℚ
  sys_cpu_percent : ℚ
  raw_cpu_sum : ℚ
  rss_mb : Int
  total_ram_mb : Int
  deriving Repr, DecidableEq

/-- Model of `StatsSampler` state: the rolling CPU history with its capacity
(`deque(maxlen=max(1, int(cpu_history_size)))`), the logical core count
and the warm-up flag. -/
structure StatsSampler where
  historyMaxlen : Nat
  cpuHistory : List ℚ
  cpuCount : Nat
  warmed : Bool
  deriving Repr, DecidableEq

/-- Model of `StatsSampler.__init__(cpu_history_size=...)`, given the machine's
logical core count as `psutil.cpu_count(logical=True)` reports it (`none`
when `psutil` returns `None`); `or 1` turns `None` and `0` into `1`. -/
def mkStatsSampler (cpu_history_size : Int) (osCpuCount : Option Nat) : StatsSampler :=
  { historyMaxlen := (max 1 cpu_history_size).toNat
    cpuHistory := []
    cpuCount := match osCpuCount with
      | some n => if n = 0 then 1 else n
      | none => 1
    warmed := false }

/-- Model of `deque.append` on a deque with `maxlen`: the new element goes to the
right, elements are discarded from the left when the length exceeds the
capacity. -/
def dequeAppend (maxlen : Nat) (h : List ℚ) (x : ℚ) : List ℚ :=
  let h' := h ++ [x]
  if maxlen < h'.length then h'.drop (h'.length - maxlen) else h'

/-- One process's readings inside `StatsSampler.sample`'s loop: processes
whose `cpu_percent` call raised are absent (the `except: continue` fires
before `rss` is added); `rss = none` records a `memory_info()` call that
raised after the CPU reading was already summed. -/
structure ProcReading where
  cpu : ℚ
  rss : Option Int
  deriving Repr, DecidableEq

/-- The OS readings one `StatsSampler.sample` call consumes: the readable
processes of the target's process tree, `psutil.cpu_percent` (`none` when
it raises) and `psutil.virtual_memory().total` (`none` when it raises). -/
structure SampleEnv where
  procs : List ProcReading
  sysCpu : Option ℚ
  totalRamBytes : Option Int
  deriving Repr, DecidableEq

/-- Model of `StatsSampler.sample(proc)`: sums CPU and RSS over the readable process
tree; on the first (un-warmed) call only primes the per-process CPU
counters and returns `None`; afterwards converts RSS to MB (truncating
division, floored at 0), normalizes the CPU sum by the core count, clamps
to `[0, 100]`, pushes into the rolling history and reports the history's
arithmetic mean, alongside machine-wide figures with their fallbacks. -/
def StatsSampler.sample (s : StatsSampler) (env : SampleEnv) :
    StatsSampler × Option ResourceSample :=
  let cpu_sum : ℚ := (env.procs.map (fun p => p.cpu)).sum
  let rss_bytes : Int := (env.procs.map (fun p => (p.rss).getD 0)).sum
  if !s.warmed then
    ({ s with warmed := true }, none)
  else
    let rss_mb : Int := max 0 (Int.tdiv rss_bytes (1024 * 1024))
    let normalized : ℚ := if s.cpuCount ≠ 0 then cpu_sum / (s.cpuCount : ℚ) else cpu_sum
    let cpu_display := clamp normalized 0 100
    let hist := dequeAppend s.historyMaxlen s.cpuHistory cpu_display
    let cpu_smoothed : ℚ := hist.sum / (hist.length : ℚ)
    let sys_cpu : ℚ := (env.sysCpu).getD 0
    let total_ram_mb : Int :=
      match env.totalRamBytes with
      | some t => Int.tdiv t (1024 * 1024)
      | none => max 4096 rss_mb
    ({ s with cpuHistory := hist },
      some { cpu_percent := cpu_smoothed
             sys_cpu_percent := sys_cpu
             raw_cpu_sum := cpu_sum
             rss_mb := rss_mb
             total_ram_mb := max 1 total_ram_mb })

/-- Model of `sample` with the identity of the target process made
explicit: `sample(self, proc)` never consults `proc`'s identity when
deciding warm-up — `self._warmed` is one per-sampler flag — so the
process-id argument is ignored and only the readings in `env` matter. -/
def StatsSampler.sampleFor (s : StatsSampler) (_procId : Nat) (env : SampleEnv) :
    StatsSampler × Option ResourceSample :=
  s.sample env

/-- Pushing a whole list of normalized readings into the rolling window. -/
def pushAll (maxlen : Nat) (h : List ℚ) (xs : List ℚ) : List ℚ :=
  xs.foldl (dequeAppend maxlen) h

/-- The smoothing step of `sample`: `sum(self._cpu_history) / len(self._cpu_history)`. -/
def smoothedOf (h : List ℚ) : ℚ := h.sum / (h.length : ℚ)

/-! ## controller.py -/

/-- Observable actions of the `ServerController`, in program order:
log-sink lines, process spawning, status callbacks, reader-task
cancellation, stdin closing, the four signal sends, the bounded and
unbounded waits, handle release and stdin writes. -/
inductive Ev where
  | log (line : String)
  | spawn
  | statusOn
  | statusOff
  | cancelReaders
  | closeStdin
  | sigTermGroup
  | sigTermSingle
  | sigKillGroup
  | sigKillSingle
  | waitBounded (timeout : Nat)
  | waitUnbounded
  | releaseHandle
  | writeStdin (bytes : List Nat)
  | flushStdin
  deriving Repr, DecidableEq

/-- The controller state the claims depend on: whether `self._proc` is set
and whether its `returncode` has been observed. -/
structure CtrlState where
  procSome : Bool
  exited : Bool
  deriving Repr, DecidableEq

/-- The state right after `ServerController.__init__`: `self._proc = None`. -/
def initialCtrl : CtrlState := { procSome := false, exited := false }

/-- Model of `is_running()`: `self._proc is not None and self._proc.returncode is None`. -/
def CtrlState.isRunning (st : CtrlState) : Bool := st.procSome && !st.exited

/-- Model of `ServerController.start()` (spawn succeeding, with `pid` the OS-chosen
process id): refuses with a log line when already running, otherwise logs,
spawns the process group leader, reports status `True`, logs the PID and
launches the reader and watcher tasks. -/
def start (server_cmd : String) (cwd : Option String) (pid : Nat) (st : CtrlState) :
    CtrlState × List Ev :=
  if st.isRunning then
    (st, [Ev.log "Server is already running."])
  else
    let cwdLogs : List Ev :=
      match cwd with
      | some d => [Ev.log ("Working directory: " ++ d)]
      | none => []
    ({ procSome := true, exited := false },
      cwdLogs ++
        [Ev.log ("Starting server: " ++ server_cmd), Ev.spawn, Ev.statusOn,
          Ev.log ("Server started (PID=" ++ toString pid ++ ").")])

/-- Which OS interactions succeed during `_terminate_process`. -/
structure TermEnv where
  pidPresent : Bool
  getpgidOkTerm : Bool
  terminateOk : Bool
  exitsInGrace : Bool
  getpgidOkKill : Bool
  killOk : Bool
  exitsInKillWait : Bool
  deriving Repr, DecidableEq

/-- Model of `ServerController._terminate_process(proc)`: SIGTERM to the process
group (falling back to `proc.terminate()`), `wait_for(..., 5.0)`; on
timeout, a log line, SIGKILL to the group (falling back to `proc.kill()`),
`wait_for(..., 3.0)` and, if that fails too, an unconditional `proc.wait()`. -/
def terminateEvents (env : TermEnv) : List Ev :=
  if !env.pidPresent then []
  else
    (if env.getpgidOkTerm then [Ev.sigTermGroup]
     else if env.terminateOk then [Ev.sigTermSingle] else []) ++
    [Ev.waitBounded 5] ++
    (if env.exitsInGrace then []
     else
       [Ev.log "Server did not stop in time; force killing..."] ++
       (if env.getpgidOkKill then [Ev.sigKillGroup]
        else if env.killOk then [Ev.sigKillSingle] else []) ++
       [Ev.waitBounded 3] ++
       (if env.exitsInKillWait then [] else [Ev.waitUnbounded]))

/-- Model of `ServerController.stop()`: returns immediately when `self._proc` is
`None`; otherwise logs, cancels the readers, closes stdin, escalates
through `_terminate_process`, releases the handle (`self._proc = None`)
and reports status `False`. -/
def stop (env : TermEnv) (st : CtrlState) : CtrlState × List Ev :=
  if !st.procSome then (st, [])
  else
    ({ st with procSome := false },
      [Ev.log "Stopping server...", Ev.cancelReaders, Ev.closeStdin] ++
        terminateEvents env ++ [Ev.releaseHandle, Ev.statusOff])

/-- UTF-8 encoding of one character, as `Python str.encode("utf-8")`
produces it (`errors="replace"` never fires: a Lean `Char` is always a
Unicode scalar value). Bytes are naturals below 256. -/
def utf8EncodeChar (c : Char) : List Nat :=
  let v := c.toNat
  if v < 0x80 then [v]
  else if v < 0x800 then
    [0xC0 + v / 0x40, 0x80 + v % 0x40]
  else if v < 0x10000 then
    [0xE0 + v / 0x1000, 0x80 + (v / 0x40) % 0x40, 0x80 + v % 0x40]
  else
    [0xF0 + v / 0x40000, 0x80 + (v / 0x1000) % 0x40, 0x80 + (v / 0x40) % 0x40,
      0x80 + v % 0x40]

/-- Python `text.encode("utf-8", errors="replace")`. -/
def utf8Encode (s : String) : List Nat :=
  (s.data.map utf8EncodeChar).flatten

/-- Model of `ServerController.send_command(command)`: logs and returns when
`self._proc` or its stdin is gone; otherwise writes the UTF-8 bytes of
`command + "\n"` to the child's stdin and drains (flushes) it. -/
def send_command (st : CtrlState) (stdinOpen : Bool) (command : String) : List Ev :=
  if !st.procSome || !stdinOpen then
    [Ev.log "Server is not running."]
  else
    [Ev.writeStdin (utf8Encode (command ++ "\n")), Ev.flushStdin]

/-- Event classifiers used to state the shutdown-ordering claim. -/
def isGraceful : Ev → Bool
  | Ev.sigTermGroup => true
  | Ev.sigTermSingle => true
  | _ => false

def isForceful : Ev → Bool
  | Ev.sigKillGroup => true
  | Ev.sigKillSingle => true
  | _ => false

/-- Signal sends, waits and the handle release: the events whose relative
order the shutdown claim constrains. -/
def isKeyEv : Ev → Bool
  | Ev.sigTermGroup => true
  | Ev.sigTermSingle => true
  | Ev.sigKillGroup => true
  | Ev.sigKillSingle => true
  | Ev.waitBounded _ => true
  | Ev.waitUnbounded => true
  | Ev.releaseHandle => true
  | _ => false

def isStatusOn : Ev → Bool
  | Ev.statusOn => true
  | _ => false

def isSpawn : Ev → Bool
  | Ev.spawn => true
  | _ => false

/-- The buffer of the concrete rendering scenario: capacity 10, holding the
single message `"a very long line of text"`. -/
def c3Buffer : LogBuffer := (LogBuffer.mk' 10).appendMsg "a very long line of text"

/-- The display lines of a rendered buffer: each returned string split at
the embedded newlines that `textwrap.fill` inserts between wrapped lines. -/
def renderLines (b : LogBuffer) (width : Int) : List String :=
  ((b.render width).map splitlines).flatten

/-! ## Theorems -/

theorem keep_last_eq_drop (xs : List String) (cap : Int) (h : 0 < cap) :
    keep_last xs cap = xs.drop (xs.length - cap.toNat) := by
  unfold keep_last
  rw [if_neg (by omega)]
  by_cases h2 : (xs.length : Int) ≤ cap
  · rw [if_pos h2]
    have h3 : xs.length - cap.toNat = 0 := by omega
    rw [h3, List.drop_zero]
  · rw [if_neg h2]

theorem applyAppends_snoc (cap : Int) (ms : List String) (m : String) :
    applyAppends cap (ms ++ [m]) = keep_last (applyAppends cap ms ++ [m]) cap := by
  simp [applyAppends, List.foldl_append]

theorem drop_suffix_snoc (k : Nat) (hk : 1 ≤ k) (ms : List String) (m : String) :
    (ms.drop (ms.length - k) ++ [m]).drop ((ms.drop (ms.length - k) ++ [m]).length - k)
      = (ms ++ [m]).drop ((ms ++ [m]).length - k) := by
  rcases Nat.le_total k ms.length with hkn | hkn
  · have h1 : (ms.drop (ms.length - k) ++ [m]).length - k = 1 := by
      simp only [List.length_append, List.length_drop, List.length_singleton]
      omega
    have h2 : (ms ++ [m]).length - k = (ms.length - k) + 1 := by
      simp only [List.length_append, List.length_singleton]
      omega
    rw [h1, h2]
    rw [List.drop_append_of_le_length (by rw [List.length_drop]; omega)]
    rw [List.drop_append_of_le_length (by omega)]
    rw [List.drop_drop]
  · have h0 : ms.length - k = 0 := by omega
    rw [h0, List.drop_zero]

theorem applyAppends_eq_drop (cap : Int) (h : 0 < cap) (msgs : List String) :
    applyAppends cap msgs = msgs.drop (msgs.length - cap.toNat) := by
  induction msgs using List.reverseRecOn with
  | nil => simp [applyAppends]
  | append_singleton ms m ih =>
    rw [applyAppends_snoc, ih, keep_last_eq_drop _ _ h]
    exact drop_suffix_snoc cap.toNat (by omega) ms m

/-- C2: for every sequence of appends on a Log Buffer with positive
capacity, the store never exceeds `max_messages` entries and is exactly the
most recently appended messages in their original order (the length-capped
suffix of the append sequence). -/
theorem C2_appends_bounded_and_recent (cap : Int) (msgs : List String) (h : 0 < cap) :
    (applyAppends cap msgs).length ≤ cap.toNat ∧
    applyAppends cap msgs = msgs.drop (msgs.length - cap.toNat) := by
  refine ⟨?_, applyAppends_eq_drop cap h msgs⟩
  rw [applyAppends_eq_drop cap h msgs, List.length_drop]
  omega

/-- Witness for C2 at capacity 2 and appends `["a", "b", "c"]`. -/
theorem C2_appends_bounded_and_recent_witness :
    (applyAppends 2 ["a", "b", "c"]).length ≤ (2 : Int).toNat ∧
    applyAppends 2 ["a", "b", "c"] =
      ["a", "b", "c"].drop ((["a", "b", "c"] : List String).length - (2 : Int).toNat) :=
  C2_appends_bounded_and_recent 2 ["a", "b", "c"] (by norm_num)

/-- C9: with a non-positive capacity every append leaves the store
completely empty (`keep_last` returns `[]`), so `render` yields no lines at
any width. -/
theorem C9_nonpositive_cap_empty (cap : Int) (h : cap ≤ 0) (msgs : List String) (width : Int) :
    applyAppends cap msgs = [] ∧
    LogBuffer.render ⟨cap, applyAppends cap msgs⟩ width = [] := by
  have hmain : applyAppends cap msgs = [] := by
    induction msgs using List.reverseRecOn with
    | nil => rfl
    | append_singleton ms m ih =>
      rw [applyAppends_snoc, ih]
      unfold keep_last
      rw [if_pos h]
  refine ⟨hmain, ?_⟩
  rw [hmain]
  simp [LogBuffer.render]

/-- Witness for C9 at capacity 0, one append, width 30. -/
theorem C9_nonpositive_cap_empty_witness :
    applyAppends 0 ["x"] = [] ∧
    LogBuffer.render ⟨0, applyAppends 0 ["x"]⟩ 30 = [] :=
  C9_nonpositive_cap_empty 0 (by norm_num) ["x"] 30

/-- C3 as stated is false: `render(10)` clamps the width up to the
enforced minimum of 20, so the first wrapped display line has 19
characters, more than 10. -/
theorem C3_width10_counterexample :
    ¬ ∀ l ∈ renderLines c3Buffer 10, strLen l ≤ 10 := by decide

/-- C3 amended: rendering the single message `"a very long line of text"`
at requested width 10 wraps at the clamped width 20 and yields multiple
display lines, each at most 20 characters, which are contiguous
word-respecting slices of the original (joined by single spaces they
reconstruct the message). -/
theorem C3_width10_amended :
    renderLines c3Buffer 10 = ["a very long line of", "text"] ∧
    1 < (renderLines c3Buffer 10).length ∧
    (∀ l ∈ renderLines c3Buffer 10, strLen l ≤ 20) ∧
    joinWith " " (renderLines c3Buffer 10) = "a very long line of text" := by decide

theorem clamp_bounds (v lo hi : ℚ) (h : lo ≤ hi) :
    lo ≤ clamp v lo hi ∧ clamp v lo hi ≤ hi := by
  unfold clamp
  split_ifs with h1 h2
  · exact ⟨h, le_refl hi⟩
  · exact ⟨le_refl lo, h⟩
  · constructor <;> linarith

theorem dequeAppend_empty (maxlen : Nat) (hcap : 1 ≤ maxlen) (x : ℚ) :
    dequeAppend maxlen [] x = [x] := by
  unfold dequeAppend
  rw [if_neg (by simp; omega)]
  rfl

theorem sample_warmed_ok (s : StatsSampler) (env : SampleEnv)
    (hw : s.warmed = true) (hcap : 1 ≤ s.historyMaxlen) (hh : s.cpuHistory = []) :
    ∃ r, (s.sample env).2 = some r ∧
      0 ≤ r.cpu_percent ∧ r.cpu_percent ≤ 100 ∧ 0 ≤ r.rss_mb := by
  have hbounds := clamp_bounds
    (if s.cpuCount ≠ 0 then (env.procs.map (fun p => p.cpu)).sum / (s.cpuCount : ℚ)
     else (env.procs.map (fun p => p.cpu)).sum) 0 100 (by norm_num)
  unfold StatsSampler.sample
  rw [hw, hh]
  simp only [Bool.not_true, Bool.false_eq_true, if_false,
    dequeAppend_empty s.historyMaxlen hcap]
  refine ⟨_, rfl, ?_, ?_, ?_⟩
  · simp only [List.sum_cons, List.sum_nil, List.length_singleton, Nat.cast_one,
      add_zero, div_one]
    exact hbounds.1
  · simp only [List.sum_cons, List.sum_nil, List.length_singleton, Nat.cast_one,
      add_zero, div_one]
    exact hbounds.2
  · exact le_max_left 0 _

/-- C4 as stated is false: warm-up is one per-sampler flag, not
per-process. After the sampler has warmed up on process 1, the very first
`sample()` call targeting a different process 2 already returns a
populated snapshot instead of the "not ready" result the claim requires
for every target process's first call. -/
theorem C4_per_process_counterexample :
    (((mkStatsSampler 5 (some 4)).sampleFor 1 ⟨[], none, none⟩).1.sampleFor 2
        ⟨[], none, none⟩).2.isSome = true := rfl

/-- C4 amended (warm-up is per sampler, not per target process): the first
`sample()` call of a freshly constructed sampler only warms up the CPU
counters and returns "not ready" (`None`); the second call returns a
populated snapshot whose smoothed CPU percent lies in `[0, 100]` and whose
resident-memory value is non-negative, whatever the OS readings are. -/
theorem C4_warmup_then_snapshot (size : Int) (osCpuCount : Option Nat)
    (env1 env2 : SampleEnv) :
    ((mkStatsSampler size osCpuCount).sample env1).2 = none ∧
    ∃ r, ((((mkStatsSampler size osCpuCount).sample env1).1).sample env2).2 = some r ∧
      0 ≤ r.cpu_percent ∧ r.cpu_percent ≤ 100 ∧ 0 ≤ r.rss_mb := by
  refine ⟨rfl, ?_⟩
  apply sample_warmed_ok
  · rfl
  · show 1 ≤ (max 1 size).toNat
    omega
  · rfl

/-- C5: with a window of capacity 3 (`cpu_history_size=3`), pushing the
normalized readings 10, 20, 90 fills the window and smooths to
`(10+20+90)/3 = 40`; pushing a fourth reading 30 evicts the oldest reading
10 and smooths to `(20+90+30)/3`. -/
theorem C5_rolling_mean :
    (mkStatsSampler 3 (some 4)).historyMaxlen = 3 ∧
    pushAll (mkStatsSampler 3 (some 4)).historyMaxlen [] [10, 20, 90] = [10, 20, 90] ∧
    smoothedOf (pushAll (mkStatsSampler 3 (some 4)).historyMaxlen [] [10, 20, 90])
      = (10 + 20 + 90) / 3 ∧
    pushAll (mkStatsSampler 3 (some 4)).historyMaxlen [] [10, 20, 90, 30] = [20, 90, 30] ∧
    smoothedOf (pushAll (mkStatsSampler 3 (some 4)).historyMaxlen [] [10, 20, 90, 30])
      = (20 + 90 + 30) / 3 := by
  refine ⟨rfl, ?_, ?_, ?_, ?_⟩ <;>
    norm_num [pushAll, dequeAppend, smoothedOf, mkStatsSampler, List.foldl,
      (show Int.toNat 3 = 3 from rfl)]

/-- C10: for every constructor argument `cpu_history_size`, zero and
negative included, the rolling window's capacity is `max(1,
cpu_history_size)`, hence at least 1, and pushing a reading always leaves
the window non-empty — so the smoothing mean's denominator is never zero. -/
theorem C10_window_never_empty (size : Int) (osCpuCount : Option Nat)
    (h : List ℚ) (x : ℚ) :
    (mkStatsSampler size osCpuCount).historyMaxlen = (max 1 size).toNat ∧
    1 ≤ (mkStatsSampler size osCpuCount).historyMaxlen ∧
    dequeAppend (mkStatsSampler size osCpuCount).historyMaxlen h x ≠ [] := by
  have hcap : 1 ≤ (mkStatsSampler size osCpuCount).historyMaxlen := by
    show 1 ≤ (max 1 size).toNat
    omega
  refine ⟨rfl, hcap, ?_⟩
  unfold dequeAppend
  dsimp only
  split_ifs with hlt
  · intro he
    have hlen := congrArg List.length he
    simp only [List.length_drop, List.length_append, List.length_singleton,
      List.length_nil] at hlen
    omega
  · simp

/-- C8: calling `stop()` with no Supervised Process handle is a no-op: it
returns without raising, produces no events (in particular no status
callback) and leaves the controller state unchanged. -/
theorem C8_stop_noop (env : TermEnv) (st : CtrlState) (h : st.procSome = false) :
    stop env st = (st, []) := by
  unfold stop
  rw [h]
  rfl

/-- Witness for C8 on the freshly initialized controller. -/
theorem C8_stop_noop_witness :
    stop ⟨true, true, true, true, true, true, true⟩ initialCtrl = (initialCtrl, []) :=
  C8_stop_noop ⟨true, true, true, true, true, true, true⟩ initialCtrl rfl

/-- C7: two `start()` calls without an intervening `stop()` produce exactly
one "online" status callback and exactly one spawned process overall; the
second call only logs that the server is already running. -/
theorem C7_double_start (cmd : String) (cwd : Option String) (pid : Nat) :
    ((start cmd cwd pid initialCtrl).2 ++
        (start cmd cwd pid (start cmd cwd pid initialCtrl).1).2).filter isStatusOn
      = [Ev.statusOn] ∧
    ((start cmd cwd pid initialCtrl).2 ++
        (start cmd cwd pid (start cmd cwd pid initialCtrl).1).2).filter isSpawn
      = [Ev.spawn] ∧
    (start cmd cwd pid (start cmd cwd pid initialCtrl).1).2
      = [Ev.log "Server is already running."] := by
  cases cwd <;>
    simp [start, initialCtrl, CtrlState.isRunning, isStatusOn, isSpawn]

theorem string_data_append (a b : String) : (a ++ b).data = a.data ++ b.data := by
  cases a
  cases b
  rfl

theorem utf8Encode_append (a b : String) :
    utf8Encode (a ++ b) = utf8Encode a ++ utf8Encode b := by
  unfold utf8Encode
  rw [string_data_append, List.map_append, List.flatten_append]

/-- C6: with a running process and an open stdin pipe, `send_command(text)`
writes exactly the UTF-8 bytes of `text` followed by one newline byte and
flushes; in particular `send_command("say hi")` writes exactly the bytes of
`"say hi\n"`. -/
theorem C6_send_command_bytes (st : CtrlState) (stdinOpen : Bool) (command : String)
    (h1 : st.procSome = true) (h2 : stdinOpen = true) :
    send_command st stdinOpen command
      = [Ev.writeStdin (utf8Encode command ++ [10]), Ev.flushStdin] ∧
    send_command st stdinOpen "say hi"
      = [Ev.writeStdin [115, 97, 121, 32, 104, 105, 10], Ev.flushStdin] := by
  have henc : utf8Encode (command ++ "\n") = utf8Encode command ++ [10] := by
    rw [utf8Encode_append]
    rfl
  constructor
  · unfold send_command
    rw [h1, h2, henc]
    rfl
  · unfold send_command
    rw [h1, h2]
    rfl

/-- Witness for C6 with a live process and the command `"say hi"`. -/
theorem C6_send_command_bytes_witness :
    send_command ⟨true, false⟩ true "say hi"
      = [Ev.writeStdin (utf8Encode "say hi" ++ [10]), Ev.flushStdin] ∧
    send_command ⟨true, false⟩ true "say hi"
      = [Ev.writeStdin [115, 97, 121, 32, 104, 105, 10], Ev.flushStdin] :=
  C6_send_command_bytes ⟨true, false⟩ true "say hi" rfl rfl

/-- C1: when `stop()` runs with an active process that does not exit within
the graceful grace period, its signal/wait/release events are exactly: one
graceful signal (group-wide, or single-process on group-lookup failure),
the 5-unit bounded wait, one forceful kill signal (group or single), the
3-unit bounded wait, the tolerated unconditional wait when that one times
out too, and only then the handle release — so neither the graceful-signal
step nor the forced-kill fallback is ever skipped. -/
theorem C1_stop_escalation (env : TermEnv) (st : CtrlState)
    (hp : st.procSome = true) (hpid : env.pidPresent = true)
    (hgr : env.exitsInGrace = false)
    (ht : env.getpgidOkTerm = true ∨ env.terminateOk = true)
    (hk : env.getpgidOkKill = true ∨ env.killOk = true) :
    ∃ g k, isGraceful g = true ∧ isForceful k = true ∧
      (stop env st).2.filter isKeyEv
        = [g, Ev.waitBounded 5, k, Ev.waitBounded 3] ++
          (if env.exitsInKillWait then [] else [Ev.waitUnbounded]) ++
          [Ev.releaseHandle] := by
  obtain ⟨ps, ex⟩ := st
  obtain ⟨p, gt, t, eg, gk, kk, ew⟩ := env
  simp only at hp hpid hgr ht hk
  subst hp
  subst hpid
  subst hgr
  cases gt <;> cases t <;> cases gk <;> cases kk <;> cases ew <;>
    simp_all [stop, terminateEvents, isKeyEv, isGraceful, isForceful]

/-- Witness for C1: group signalling succeeds, the child survives the
grace period and dies inside the forced-kill wait. -/
theorem C1_stop_escalation_witness :
    ∃ g k, isGraceful g = true ∧ isForceful k = true ∧
      (stop ⟨true, true, true, false, true, true, true⟩ ⟨true, false⟩).2.filter isKeyEv
        = [g, Ev.waitBounded 5, k, Ev.waitBounded 3] ++
          (if (true : Bool) then ([] : List Ev) else [Ev.waitUnbounded]) ++
          [Ev.releaseHandle] :=
  C1_stop_escalation ⟨true, true, true, false, true, true, true⟩ ⟨true, false⟩
    rfl rfl rfl (Or.inl rfl) (Or.inl rfl)

end Bedrux
